import Mathlib

/-!
Shallow embedding of the `ztr` note-creation core (src/src/lib.rs):
the note resolver, the template renderer pipeline, the creation flow
`open_create`, and the random name generator `generate`.
Filesystem effects and the random source are modelled as explicit
oracles; the Handlebars template engine (an external crate) is modelled
from the spec's description of its grammar and semantics.
-/

namespace Ztr

/-- The caller's partial note specification (`ztr::NewNote`): each field
may be unset, meaning "use the default". -/
structure NewNote where
  template : Option String
  title : Option String
  content : Option String
  tags : Option (List String)

/-- The fully-specified note record (`ztr::Note`) handed to the renderer.
All five fields are serialized into the template context. -/
structure Note where
  template : String
  filename : String
  title : String
  content : String
  tags : List String

/-- The fallback values (`ztr::DefaultNote`), always fully specified. -/
structure DefaultNote where
  template : String
  title : String
  content : String
  tags : List String

/-- Embedding of `resolve_note_defaults`: per-field coalesce of the
request over the defaults (`note.field.clone().unwrap_or(default.field.clone())`),
with the filename assigned from the caller-supplied name. -/
def resolve_note_defaults (name : String) (note : NewNote) (dflt : DefaultNote) : Note :=
  { template := note.template.getD dflt.template
    filename := name
    title := note.title.getD dflt.title
    content := note.content.getD dflt.content
    tags := note.tags.getD dflt.tags }

/-- Modelled from the spec: a token of the renderer's template grammar.
The Handlebars engine used by `render_note_template` is an external crate,
so its grammar is modelled from the spec's description: plain text,
variable interpolation directives, and section open/close directives
for conditionals and iteration. -/
inductive Tok
  | text (s : String)
  | var (n : String)
  | secOpen (kind n : String)
  | secClose (kind : String)
deriving DecidableEq, Repr

/-- Modelled from the spec: the renderer's abstract syntax after a
successful template compile: text, variable interpolation, sequencing,
conditional sections and iteration sections. -/
inductive Tmpl
  | epsilon
  | text (s : String)
  | var (n : String)
  | seq (a b : Tmpl)
  | ifSec (n : String) (body : Tmpl)
  | eachSec (n : String) (body : Tmpl)
deriving DecidableEq, Repr

/-- Drop spaces from both ends of a directive's character list. -/
def trimChars (cs : List Char) : List Char :=
  ((cs.dropWhile (· = ' ')).reverse.dropWhile (· = ' ')).reverse

/-- Split a character list at the first space, if any. -/
def breakSpace : List Char → List Char × Option (List Char)
  | [] => ([], none)
  | ' ' :: rest => ([], some rest)
  | c :: rest =>
    let p := breakSpace rest
    (c :: p.1, p.2)

/-- Modelled from the spec: classify the characters between `\x7b\x7b` and
`\x7d\x7d` as a directive token. Section opens recognise only the `if` and
`each` directives; any other `#`-directive is an unknown directive and
fails the compile, as the spec requires. -/
def classifyDirective (cs : List Char) : Except String Tok :=
  match trimChars cs with
  | [] => .error "empty directive"
  | '#' :: rest =>
    match breakSpace rest with
    | (kind, some arg) =>
      let argT := trimChars arg
      if argT.any (· = ' ') then .error "malformed section argument"
      else if kind = "if".toList then .ok (.secOpen "if" (String.mk argT))
      else if kind = "each".toList then .ok (.secOpen "each" (String.mk argT))
      else .error "unknown directive"
    | (_, none) => .error "section without argument"
  | '/' :: rest =>
    if trimChars rest = "if".toList then .ok (.secClose "if")
    else if trimChars rest = "each".toList then .ok (.secClose "each")
    else .error "unknown section close"
  | other =>
    if other.any (· = ' ') then .error "malformed interpolation"
    else .ok (.var (String.mk other))

/-- Scanner mode: inside plain text, or inside a `\x7b\x7b ... \x7d\x7d`
directive. -/
inductive ScanMode
  | plain
  | directive
deriving DecidableEq

/-- Modelled from the spec: the template scanner. Walks the character
list (fuel-indexed for structural recursion), splitting it into text and
directive tokens; a directive left unclosed at end of input fails the
compile. -/
def scanToks : Nat → ScanMode → List Char → List Char → Except String (List Tok)
  | 0, _, _, _ => .error "out of fuel"
  | _ + 1, .plain, acc, [] => .ok [.text (String.mk acc.reverse)]
  | f + 1, .plain, acc, '\x7b' :: '\x7b' :: rest =>
    match scanToks f .directive [] rest with
    | .ok toks => .ok (.text (String.mk acc.reverse) :: toks)
    | .error e => .error e
  | f + 1, .plain, acc, c :: rest => scanToks f .plain (c :: acc) rest
  | _ + 1, .directive, _, [] => .error "unclosed directive"
  | f + 1, .directive, acc, '\x7d' :: '\x7d' :: rest =>
    match classifyDirective acc.reverse with
    | .ok tok =>
      match scanToks f .plain [] rest with
      | .ok toks => .ok (tok :: toks)
      | .error e => .error e
    | .error e => .error e
  | f + 1, .directive, acc, c :: rest => scanToks f .directive (c :: acc) rest

/-- Modelled from the spec: tokenize a whole template string. -/
def tokenize (s : String) : Except String (List Tok) :=
  scanToks (s.length + 1) .plain [] s.toList

/-- Modelled from the spec: the recursive-descent section parser over a
token list (fuel-indexed). Returns the parsed template together with the
unconsumed tokens, stopping at a section close; an open section whose
matching close is missing or of the wrong kind fails the compile. -/
def parseToks : Nat → List Tok → Except String (Tmpl × List Tok)
  | 0, _ => .error "out of fuel"
  | _ + 1, [] => .ok (.epsilon, [])
  | f + 1, .text s :: rest =>
    match parseToks f rest with
    | .ok (t, rem) => .ok (.seq (.text s) t, rem)
    | .error e => .error e
  | f + 1, .var n :: rest =>
    match parseToks f rest with
    | .ok (t, rem) => .ok (.seq (.var n) t, rem)
    | .error e => .error e
  | f + 1, .secOpen kind n :: rest =>
    match parseToks f rest with
    | .ok (body, rem) =>
      match rem with
      | .secClose kind2 :: rem2 =>
        if kind2 = kind then
          match parseToks f rem2 with
          | .ok (t, rem3) =>
            let node := if kind = "each" then Tmpl.eachSec n body else Tmpl.ifSec n body
            .ok (.seq node t, rem3)
          | .error e => .error e
        else .error "mismatched section close"
      | _ => .error "unbalanced section"
    | .error e => .error e
  | _ + 1, .secClose kind :: rest => .ok (.epsilon, .secClose kind :: rest)

/-- Modelled from the spec: `hb.register_template_string` — compiles the
template text, failing on malformed syntax (unbalanced section tags,
unknown directives). A leftover close token at top level is an
unbalanced section. -/
def registerTemplateString (s : String) : Except String Tmpl :=
  match tokenize s with
  | .error e => .error e
  | .ok toks =>
    match parseToks (toks.length + 1) toks with
    | .ok (t, []) => .ok t
    | .ok (_, _ :: _) => .error "unbalanced section close"
    | .error e => .error e

/-- Modelled from the spec: a value bound in the template context —
either text or a sequence of text. -/
inductive HbVal
  | vs (s : String)
  | vl (l : List String)
deriving DecidableEq

/-- Modelled from the spec: resolve a name in the render context. The
serialized `Note` binds all five fields; `this` is the implicit current
item inside an iteration; an unknown name resolves to empty text
(non-strict interpolation). -/
def lookupVal (note : Note) (cur : Option String) (n : String) : HbVal :=
  if n = "title" then .vs note.title
  else if n = "content" then .vs note.content
  else if n = "filename" then .vs note.filename
  else if n = "template" then .vs note.template
  else if n = "tags" then .vl note.tags
  else if n = "this" then
    match cur with
    | some s => .vs s
    | none => .vs ""
  else .vs ""

/-- Modelled from the spec: text produced by interpolating a value. -/
def valText : HbVal → String
  | .vs s => s
  | .vl l => String.intercalate ", " l

/-- Modelled from the spec: the truthiness test for conditional sections.
A present-but-empty sequence is falsy; a non-empty sequence is truthy;
empty text is falsy. -/
def truthy : HbVal → Bool
  | .vs s => !(s == "")
  | .vl l => !l.isEmpty

/-- Modelled from the spec: render a compiled template against a note,
with `cur` the implicit current item of the innermost iteration.
Iteration walks the bound sequence in its original order. -/
def renderTmpl (note : Note) : Tmpl → Option String → String
  | .epsilon, _ => ""
  | .text s, _ => s
  | .var n, cur => valText (lookupVal note cur n)
  | .seq a b, cur => renderTmpl note a cur ++ renderTmpl note b cur
  | .ifSec n body, cur =>
    if truthy (lookupVal note cur n) then renderTmpl note body cur else ""
  | .eachSec n body, cur =>
    match lookupVal note cur n with
    | .vl l => String.join (l.map (fun x => renderTmpl note body (some x)))
    | .vs _ => ""

/-- Modelled from the spec: `hb.render` on an already-registered template.
In the spec's error model every template failure is a compile-time
failure (malformed syntax, unknown directive), so rendering a compiled
template always succeeds. -/
def hbRender (t : Tmpl) (note : Note) : Except String String :=
  Except.ok (renderTmpl note t none)

/-- Outcome of `render_note_template`: an ok render, a propagated
registration error, or a panic of the `.unwrap()` on the render result. -/
inductive RenderOutcome
  | ok (s : String)
  | err (e : String)
  | panicked
deriving DecidableEq, Repr

/-- Embedding of `render_note_template`: registers the note's template
(propagating registration errors with `?`), then renders and `.unwrap()`s
the render result — a render-time error would panic. -/
def render_note_template (note : Note) : RenderOutcome :=
  match registerTemplateString note.template with
  | .error e => .err e
  | .ok t =>
    match hbRender t note with
    | .ok s => .ok s
    | .error _ => .panicked

/-- Outcome of the filesystem-touching creation flow: an `io::Error` from
`fs::File::create`, an `io::Error` from `write!`, or an unreachable panic
bubbled up from `render_note_template`. -/
inductive FlowError
  | createFailed
  | writeFailed
  | panicked
deriving DecidableEq, Repr

/-- Oracle for the two fallible filesystem calls in `open_create`:
whether `fs::File::create` fails and whether `write!` fails. -/
structure FsEnv where
  create_fails : Bool
  write_fails : Bool

/-- The filesystem modelled as an association list from paths to file
contents; the most recent write of a path shadows older entries. -/
def FsState := List (String × String)

/-- Record a file's contents at a path (create-truncate or write). -/
def fsWrite (st : FsState) (p v : String) : FsState := (p, v) :: st

/-- Read back a file's current contents, if the path exists. -/
def fsRead (st : FsState) (p : String) : Option String :=
  match st.find? (fun e => e.1 == p) with
  | some e => some e.2
  | none => none

/-- `Path::join` on a directory and a relative file name. -/
def pathJoin (root name : String) : String := root ++ "/" ++ name

/-- Embedding of `open_create`: build the file name from the injected
name generator plus `.md`, join it under the root, create (truncate) the
file — propagating a create failure — then resolve the note, render it
with `unwrap_or` of the empty string on a render error, and write the
content — propagating a write failure — returning the path. -/
def open_create (env : FsEnv) (st : FsState) (zk_root : String)
    (name_generator : Unit → String) (note : NewNote) (dflt : DefaultNote) :
    FsState × Except FlowError String :=
  let note_name := name_generator () ++ ".md"
  let note_path := pathJoin zk_root note_name
  if env.create_fails then (st, .error .createFailed)
  else
    let st1 := fsWrite st note_path ""
    let resolved_note := resolve_note_defaults note_name note dflt
    let writeStep := fun (content : String) =>
      if env.write_fails then (st1, Except.error FlowError.writeFailed)
      else (fsWrite st1 note_path content, Except.ok note_path)
    match render_note_template resolved_note with
    | .ok s => writeStep s
    | .err _ => writeStep ""
    | .panicked => (st1, .error .panicked)

/-- The character set of `generate`: the 36 symbols `a`-`z` and `0`-`9`. -/
def CHARSET : List Char := "abcdefghijklmnopqrstuvwxyz0123456789".toList

/-- Embedding of `generate`: draw `len = 10` characters from `CHARSET`,
indexing each draw by the injected random source `rng`, whose value at
every call models `gen_range(0..CHARSET.len())` and is therefore below
`CHARSET.length`. -/
def generate (rng : Nat → Nat) : String :=
  let len := 10
  String.mk ((List.range len).map (fun i => CHARSET.getD (rng i) 'a'))

/-- Whether the creation flow's result is an error. -/
def isErrResult : Except FlowError String → Bool
  | .error _ => true
  | .ok _ => false

theorem render_note_template_ne_panicked (note : Note) :
    render_note_template note ≠ RenderOutcome.panicked := by
  unfold render_note_template
  cases h : registerTemplateString note.template <;> simp [hbRender]

/-- Claim C2: each of the four overridable fields of the resolved note
takes the request's value when present and the default's value otherwise,
field by field; in particular a present-but-empty tags list is taken
exactly (the `some v` clause at `v = []`), never the default list. -/
theorem resolve_override_law (name : String) (req : NewNote) (d : DefaultNote) :
    (∀ v, req.template = some v → (resolve_note_defaults name req d).template = v) ∧
    (req.template = none → (resolve_note_defaults name req d).template = d.template) ∧
    (∀ v, req.title = some v → (resolve_note_defaults name req d).title = v) ∧
    (req.title = none → (resolve_note_defaults name req d).title = d.title) ∧
    (∀ v, req.content = some v → (resolve_note_defaults name req d).content = v) ∧
    (req.content = none → (resolve_note_defaults name req d).content = d.content) ∧
    (∀ v, req.tags = some v → (resolve_note_defaults name req d).tags = v) ∧
    (req.tags = none → (resolve_note_defaults name req d).tags = d.tags) := by
  refine ⟨fun v h => ?_, fun h => ?_, fun v h => ?_, fun h => ?_,
    fun v h => ?_, fun h => ?_, fun v h => ?_, fun h => ?_⟩ <;>
    simp [resolve_note_defaults, h]

/-- Witness for C2 at a concrete request and defaults: a present template
is taken, an unset title falls back, and a present-but-empty tags list
yields exactly the empty list. -/
theorem resolve_override_law_witness :
    (resolve_note_defaults "n.md" ⟨some "T", none, some "C", some []⟩
      ⟨"dt", "dti", "dc", ["x"]⟩).template = "T" ∧
    (resolve_note_defaults "n.md" ⟨some "T", none, some "C", some []⟩
      ⟨"dt", "dti", "dc", ["x"]⟩).title = "dti" ∧
    (resolve_note_defaults "n.md" ⟨some "T", none, some "C", some []⟩
      ⟨"dt", "dti", "dc", ["x"]⟩).tags = [] :=
  ⟨(resolve_override_law "n.md" _ _).1 "T" rfl,
   (resolve_override_law "n.md" _ _).2.2.2.1 rfl,
   (resolve_override_law "n.md" _ _).2.2.2.2.2.2.1 [] rfl⟩

/-- Claim C3: the resolved note's filename is the generator's output with
`.md` appended, whatever the request and defaults hold, and — when the
filesystem does not fail — the creation flow returns exactly the root
joined with that filename. -/
theorem filename_determinism (env : FsEnv) (st : FsState) (root : String)
    (gen : Unit → String) (note : NewNote) (dflt : DefaultNote)
    (hc : env.create_fails = false) (hw : env.write_fails = false) :
    (resolve_note_defaults (gen () ++ ".md") note dflt).filename = gen () ++ ".md" ∧
    (open_create env st root gen note dflt).2 =
      Except.ok (pathJoin root (gen () ++ ".md")) := by
  refine ⟨rfl, ?_⟩
  unfold open_create
  cases h : render_note_template (resolve_note_defaults (gen () ++ ".md") note dflt) with
  | ok s => simp [hc, hw, h]
  | err e => simp [hc, hw, h]
  | panicked => exact absurd h (render_note_template_ne_panicked _)

/-- Witness for C3 with a stubbed generator returning `test`: the path is
the root joined with `test.md`. -/
theorem filename_determinism_witness :
    (resolve_note_defaults ((fun _ => "test") () ++ ".md")
      ⟨none, none, none, none⟩ ⟨"d", "t", "c", []⟩).filename = "test" ++ ".md" ∧
    (open_create ⟨false, false⟩ [] "zk" (fun _ => "test")
      ⟨none, none, none, none⟩ ⟨"d", "t", "c", []⟩).2 =
      Except.ok (pathJoin "zk" ("test" ++ ".md")) :=
  filename_determinism ⟨false, false⟩ [] "zk" (fun _ => "test")
    ⟨none, none, none, none⟩ ⟨"d", "t", "c", []⟩ rfl rfl

/-- Claim C6: rendering is deterministic — equal resolved notes render to
identical outcomes; the embedded renderer is a pure function of the note,
matching the source, which builds a fresh engine from the note alone. -/
theorem render_determinism (n1 n2 : Note) (h : n1 = n2) :
    render_note_template n1 = render_note_template n2 := by rw [h]

/-- Witness for C6 at a concrete resolved note. -/
theorem render_determinism_witness :
    render_note_template ⟨"\x7b\x7btitle\x7d\x7d", "f.md", "t", "c", []⟩ =
      render_note_template ⟨"\x7b\x7btitle\x7d\x7d", "f.md", "t", "c", []⟩ :=
  render_determinism ⟨"\x7b\x7btitle\x7d\x7d", "f.md", "t", "c", []⟩ ⟨"\x7b\x7btitle\x7d\x7d", "f.md", "t", "c", []⟩ rfl

/-- Claim C7: the creation flow returns an error exactly when the file
create or the file write fails; render failures never surface, and there
is no retry or recovery path in the flow. -/
theorem fs_error_propagation (env : FsEnv) (st : FsState) (root : String)
    (gen : Unit → String) (note : NewNote) (dflt : DefaultNote) :
    isErrResult (open_create env st root gen note dflt).2 =
      (env.create_fails || env.write_fails) := by
  unfold open_create
  cases hc : env.create_fails with
  | true => simp [isErrResult]
  | false =>
    cases h : render_note_template (resolve_note_defaults (gen () ++ ".md") note dflt) with
    | ok s => cases hw : env.write_fails <;> simp [isErrResult, h, hw]
    | err e => cases hw : env.write_fails <;> simp [isErrResult, h, hw]
    | panicked => exact absurd h (render_note_template_ne_panicked _)

/-- Claim C1: when the resolved note's template fails the renderer's
compile (unbalanced sections, unknown directives) and the filesystem does
not fail, the creation flow still returns the joined path successfully
and the written file holds exactly the empty string. -/
theorem fallback_on_render_error (env : FsEnv) (st : FsState) (root : String)
    (gen : Unit → String) (note : NewNote) (dflt : DefaultNote) (e : String)
    (hc : env.create_fails = false) (hw : env.write_fails = false)
    (hr : render_note_template (resolve_note_defaults (gen () ++ ".md") note dflt) =
      RenderOutcome.err e) :
    (open_create env st root gen note dflt).2 =
      Except.ok (pathJoin root (gen () ++ ".md")) ∧
    fsRead (open_create env st root gen note dflt).1 (pathJoin root (gen () ++ ".md")) =
      some "" := by
  unfold open_create
  simp [hc, hw, hr, fsRead, fsWrite]

/-- Witness for C1: a template with an unclosed conditional section fails
to register, yet the flow returns the path and writes the empty string. -/
theorem fallback_on_render_error_witness :
    (open_create ⟨false, false⟩ [] "zk" (fun _ => "test")
      ⟨some "\x7b\x7b#if tags\x7d\x7d", none, none, none⟩ ⟨"d", "t", "c", []⟩).2 =
      Except.ok (pathJoin "zk" ((fun _ => "test") () ++ ".md")) ∧
    fsRead (open_create ⟨false, false⟩ [] "zk" (fun _ => "test")
      ⟨some "\x7b\x7b#if tags\x7d\x7d", none, none, none⟩ ⟨"d", "t", "c", []⟩).1
      (pathJoin "zk" ((fun _ => "test") () ++ ".md")) = some "" :=
  fallback_on_render_error ⟨false, false⟩ [] "zk" (fun _ => "test")
    ⟨some "\x7b\x7b#if tags\x7d\x7d", none, none, none⟩ ⟨"d", "t", "c", []⟩
    "unbalanced section" rfl rfl (by decide)

/-- Claim C4: a conditional section gated on `tags` emits its body iff
the tags sequence is non-empty — an explicitly empty list omits the body
— both at the semantic level for any body, and through the full
register-and-render pipeline for the template
`\x7b\x7b#if tags\x7d\x7dX\x7b\x7b/if\x7d\x7d` at any resolved fields. -/
theorem falsy_empty_tags :
    (∀ (note : Note) (cur : Option String) (body : Tmpl),
      renderTmpl note (Tmpl.ifSec "tags" body) cur =
        if note.tags.isEmpty then "" else renderTmpl note body cur) ∧
    (∀ fn ti co tg, render_note_template ⟨"\x7b\x7b#if tags\x7d\x7dX\x7b\x7b/if\x7d\x7d", fn, ti, co, tg⟩ =
      RenderOutcome.ok (if tg.isEmpty then "" else "X")) := by
  constructor
  · intro note cur body
    simp [renderTmpl, lookupVal, truthy]
  · intro fn ti co tg
    rcases tg with _ | ⟨x, xs⟩ <;> rfl

/-- Claim C5: an iteration section over `tags` renders its body once per
tag, binding each tag in turn to the implicit current item, in the order
of the tags list — both at the semantic level for any body, and through
the full pipeline for the template
`\x7b\x7b#each tags\x7d\x7d\x7b\x7bthis\x7d\x7d,\x7b\x7b/each\x7d\x7d`. -/
theorem each_iterates_in_order :
    (∀ (note : Note) (cur : Option String) (body : Tmpl),
      renderTmpl note (Tmpl.eachSec "tags" body) cur =
        String.join (note.tags.map (fun x => renderTmpl note body (some x)))) ∧
    (∀ fn ti co tg,
      render_note_template ⟨"\x7b\x7b#each tags\x7d\x7d\x7b\x7bthis\x7d\x7d,\x7b\x7b/each\x7d\x7d", fn, ti, co, tg⟩ =
        RenderOutcome.ok (String.join (tg.map (fun t => t ++ ",")))) := by
  constructor
  · intro note cur body
    simp [renderTmpl, lookupVal]
  · intro fn ti co tg
    show RenderOutcome.ok _ = _
    congr 1
    simp [renderTmpl, lookupVal, valText, String.empty_append, String.append_empty,
      show String.mk (trimChars ['t', 'a', 'g', 's']) = "tags" from rfl]

/-- Claim C8: with every request field unset and the Scenario A defaults,
the creation flow writes a file whose entire contents are
`# test-title\n\ntest-content` and returns the joined path. -/
theorem scenario_a_written_contents :
    (open_create ⟨false, false⟩ [] "zk" (fun _ => "test")
      ⟨none, none, none, none⟩
      ⟨"# \x7b\x7btitle\x7d\x7d\n\n\x7b\x7bcontent\x7d\x7d", "test-title", "test-content", []⟩).2 =
      Except.ok (pathJoin "zk" "test.md") ∧
    fsRead (open_create ⟨false, false⟩ [] "zk" (fun _ => "test")
      ⟨none, none, none, none⟩
      ⟨"# \x7b\x7btitle\x7d\x7d\n\n\x7b\x7bcontent\x7d\x7d", "test-title", "test-content", []⟩).1
      (pathJoin "zk" "test.md") = some "# test-title\n\ntest-content" := by
  constructor
  · rfl
  · rfl

/-- Claim C9: whenever the random source respects the `gen_range` bound,
the generated name has exactly 10 characters, each drawn from `CHARSET`,
which holds the 36 pairwise-distinct symbols `a`-`z`, `0`-`9`. -/
theorem generate_name_shape (rng : Nat → Nat) (h : ∀ i, i < 10 → rng i < 36) :
    (generate rng).length = 10 ∧
    (∀ c ∈ (generate rng).toList, c ∈ CHARSET) ∧
    CHARSET.length = 36 ∧ CHARSET.Nodup := by
  refine ⟨?_, ?_, by decide, by decide⟩
  · simp [generate]
  · intro c hc
    simp only [generate, String.toList] at hc
    obtain ⟨i, hi, hci⟩ := List.mem_map.mp hc
    have hlt : rng i < CHARSET.length := by
      have := h i (List.mem_range.mp hi)
      simpa [CHARSET] using this
    rw [← hci, List.getD_eq_getElem CHARSET 'a' hlt]
    exact List.getElem_mem hlt

/-- Witness for C9 with the constant-zero random source. -/
theorem generate_name_shape_witness :
    (generate (fun _ => 0)).length = 10 ∧
    (∀ c ∈ (generate (fun _ => 0)).toList, c ∈ CHARSET) ∧
    CHARSET.length = 36 ∧ CHARSET.Nodup :=
  generate_name_shape (fun _ => 0) (fun i _ => show (0 : Nat) < 36 by omega)

/-- Claim C10: the error fallback only covers registration failures — if
registering the resolved note's template succeeds, the subsequent render
succeeds too, so the `.unwrap()` on it never panics and the outcome is
the rendered text. -/
theorem unwrap_after_register_safe (note : Note) (t : Tmpl)
    (h : registerTemplateString note.template = Except.ok t) :
    hbRender t note = Except.ok (renderTmpl note t none) ∧
    render_note_template note = RenderOutcome.ok (renderTmpl note t none) := by
  refine ⟨rfl, ?_⟩
  unfold render_note_template
  rw [h]
  rfl

/-- Witness for C10 at a concrete successfully-registered template. -/
theorem unwrap_after_register_safe_witness :
    render_note_template ⟨"\x7b\x7btitle\x7d\x7d", "f.md", "T", "c", []⟩ = RenderOutcome.ok "T" :=
  ((unwrap_after_register_safe ⟨"\x7b\x7btitle\x7d\x7d", "f.md", "T", "c", []⟩
    (Tmpl.seq (Tmpl.text "") (Tmpl.seq (Tmpl.var "title") (Tmpl.seq (Tmpl.text "") Tmpl.epsilon)))
    rfl).2).trans (by decide)

end Ztr
